import Mathlib

set_option linter.unusedVariables false

/-!
Shallow embedding of the logistics dispatch backend
(`src/backend/admin_backend/main.py` and `src/backend/driver_backend/main.py`).

The persistent store is modelled as an explicit `DB` value of lists of rows;
each route/service operation becomes a function `... → DB → Except ApiError α × DB`
returning the (possibly raised) HTTP outcome together with the post-call store.
`raise HTTPException` in the Python source always occurs before any write, so an
error outcome is paired with the unmodified store, exactly as the code behaves.
The password-verification capability (`backend.shared.utils.verify_password`) and
the wall clock (`datetime.utcnow`) are opaque external collaborators and are
passed in as parameters.
-/

/-- Modelled from the spec: `ShipmentStatus` enum from the absent
`backend/shared/models.py` — states `PENDING → ASSIGNED → IN_TRANSIT → DELIVERED`,
plus `CANCELLED` (spec section 4.2). -/
inductive ShipmentStatus
  | PENDING
  | ASSIGNED
  | IN_TRANSIT
  | DELIVERED
  | CANCELLED
deriving DecidableEq, Repr

/-- Modelled from the spec: the `.value` string of a `ShipmentStatus` member. -/
def ShipmentStatus.value : ShipmentStatus → String
  | .PENDING => "PENDING"
  | .ASSIGNED => "ASSIGNED"
  | .IN_TRANSIT => "IN_TRANSIT"
  | .DELIVERED => "DELIVERED"
  | .CANCELLED => "CANCELLED"

/-- Modelled from the spec: `UserRole` enum from the absent
`backend/shared/models.py` (`dispatcher`, `driver`, `customer`). -/
inductive UserRole
  | dispatcher
  | driver
  | customer
deriving DecidableEq, Repr

/-- Modelled from the spec: the `.value` string of a `UserRole` member. -/
def UserRole.value : UserRole → String
  | .dispatcher => "dispatcher"
  | .driver => "driver"
  | .customer => "customer"

/-- Modelled from the spec: `MessageType` enum from the absent
`backend/shared/models.py` (`to_customer` | `to_driver`). -/
inductive MessageType
  | TO_CUSTOMER
  | TO_DRIVER
deriving DecidableEq, Repr

/-- Modelled from the spec: the `User` row of the absent `backend/shared/models.py`
(spec section 3); timestamps are abstract `Nat` ticks. -/
structure User where
  id : Nat
  email : String
  password_hash : String
  full_name : String
  phone : String
  role : UserRole
  updated_at : Nat
deriving DecidableEq, Repr

/-- Modelled from the spec: the `Driver` row of the absent `backend/shared/models.py`. -/
structure Driver where
  id : Nat
  full_name : String
  phone : String
  license_number : String
deriving DecidableEq, Repr

/-- Modelled from the spec: the `Shipment` row of the absent `backend/shared/models.py`.
`weight` never takes part in arithmetic in the embedded code, so its carrier is `Nat`. -/
structure Shipment where
  id : Nat
  shipment_number : String
  pickup_location : String
  delivery_location : String
  cargo_type : String
  weight : Nat
  dimensions : String
  status : ShipmentStatus
  customer_id : Option Nat
  driver_id : Option Nat
  created_at : Nat
deriving DecidableEq, Repr

/-- Modelled from the spec: the `Message` row of the absent `backend/shared/models.py`. -/
structure Message where
  id : Nat
  sender_id : Nat
  recipient_id : Nat
  shipment_id : Option Nat
  content : String
  message_type : MessageType
  created_at : Nat
  is_read : Bool
deriving DecidableEq, Repr

/-- The persistent store: one list per table, plus the autoincrement counter
for `Message.id`. -/
structure DB where
  users : List User
  drivers : List Driver
  shipments : List Shipment
  messages : List Message
  next_message_id : Nat
deriving DecidableEq, Repr

/-- An `HTTPException(status_code, detail)` as raised by both backends. -/
structure ApiError where
  status_code : Nat
  detail : String
deriving DecidableEq, Repr

/-- Decidable equality of call outcomes, so that concrete runs can be checked
by `decide`. -/
instance exceptDecEq {ε α : Type} [DecidableEq ε] [DecidableEq α] :
    DecidableEq (Except ε α) := fun a b =>
  match a, b with
  | Except.ok x, Except.ok y =>
    if h : x = y then isTrue (by rw [h]) else isFalse (by intro hc; cases hc; exact h rfl)
  | Except.error x, Except.error y =>
    if h : x = y then isTrue (by rw [h]) else isFalse (by intro hc; cases hc; exact h rfl)
  | Except.ok _, Except.error _ => isFalse (by intro hc; cases hc)
  | Except.error _, Except.ok _ => isFalse (by intro hc; cases hc)

namespace Admin

/-!
Embedding of `src/backend/admin_backend/main.py` (the "Dispatcher Panel" / OOP
service backend).
-/

/-- Result dict of `ShipmentService.assign_driver` (admin backend, lines 141–146). -/
structure AssignResponse where
  message : String
  shipment_number : String
  driver : String
  status : String
deriving DecidableEq, Repr

/-- Result dict of `ShipmentService.update_status` (admin backend, lines 157–161). -/
structure StatusResponse where
  message : String
  shipment_number : String
  new_status : String
deriving DecidableEq, Repr

/-- Result dict of `NotificationService.send_message` (admin backend, lines 191–198). -/
structure MessageReceipt where
  id : Nat
  content : String
  sent_to : String
  sent_to_role : String
  shipment_id : Option Nat
  sent_at : Nat
deriving DecidableEq, Repr

/-- Row dict of `NotificationService.get_sent_messages` (admin backend, lines 203–214).
The recipient/shipment joins resolve through the store; a dangling foreign key
projects to `none`. -/
structure SentMessageView where
  id : Nat
  content : String
  to_name : Option String
  to_role : Option String
  shipment_number : Option String
  sent_at : Nat
  is_read : Bool
deriving DecidableEq, Repr

/-- `AuthService.authenticate_dispatcher` (admin backend, lines 38–53).
`verify` is the opaque `verify_password` capability and `now` is
`datetime.utcnow()`.  On success the user's `updated_at` is written back
(`db.commit()`) before the user is returned. -/
def authenticate_dispatcher (verify : String → String → Bool)
    (email password : String) (now : Nat) (db : DB) :
    Except ApiError User × DB :=
  match db.users.find? (fun u => u.email == email) with
  | none => (.error ⟨401, "Invalid credentials"⟩, db)
  | some user =>
    if !verify password user.password_hash then
      (.error ⟨401, "Invalid credentials"⟩, db)
    else if user.role.value ≠ "dispatcher" then
      (.error ⟨403, "Dispatcher access only"⟩, db)
    else
      let user' := { user with updated_at := now }
      (.ok user',
       { db with users := db.users.map (fun u => if u.id == user.id then user' else u) })

/-- `ShipmentService.assign_driver` (admin backend, lines 127–146): both lookups
run first, then the shipment check, then the driver check; on success the
shipment's `driver_id` and `status` are written and committed. -/
def assign_driver (shipment_id driver_id : Nat) (db : DB) :
    Except ApiError AssignResponse × DB :=
  match db.shipments.find? (fun s => s.id == shipment_id),
        db.drivers.find? (fun d => d.id == driver_id) with
  | none, _ => (.error ⟨404, "Shipment not found"⟩, db)
  | some _, none => (.error ⟨404, "Driver not found"⟩, db)
  | some shipment, some driver =>
    let shipment' := { shipment with driver_id := some driver.id,
                                     status := ShipmentStatus.ASSIGNED }
    (.ok ⟨"Driver assigned", shipment.shipment_number, driver.full_name, "ASSIGNED"⟩,
     { db with shipments :=
        db.shipments.map (fun s => if s.id == shipment_id then shipment' else s) })

/-- `ShipmentService.update_status` (admin backend, lines 148–161). -/
def update_status (shipment_id : Nat) (new_status : ShipmentStatus) (db : DB) :
    Except ApiError StatusResponse × DB :=
  match db.shipments.find? (fun s => s.id == shipment_id) with
  | none => (.error ⟨404, "Shipment not found"⟩, db)
  | some shipment =>
    let shipment' := { shipment with status := new_status }
    (.ok ⟨"Status updated", shipment.shipment_number, new_status.value⟩,
     { db with shipments :=
        db.shipments.map (fun s => if s.id == shipment_id then shipment' else s) })

/-- `NotificationService.send_message` (admin backend, lines 167–198): the
recipient must exist; `shipment_id` is stored as given with no validation; the
new row gets the autoincrement id and the current timestamp. -/
def send_message (sender : User) (recipient_id : Nat) (message : String)
    (shipment_id : Option Nat) (message_type : MessageType) (now : Nat) (db : DB) :
    Except ApiError MessageReceipt × DB :=
  match db.users.find? (fun u => u.id == recipient_id) with
  | none => (.error ⟨404, "Recipient not found"⟩, db)
  | some recipient =>
    let new_msg : Message :=
      { id := db.next_message_id
        sender_id := sender.id
        recipient_id := recipient_id
        shipment_id := shipment_id
        content := message
        message_type := message_type
        created_at := now
        is_read := false }
    (.ok { id := new_msg.id
           content := message
           sent_to := recipient.full_name
           sent_to_role := recipient.role.value
           shipment_id := shipment_id
           sent_at := now },
     { db with messages := db.messages ++ [new_msg]
               next_message_id := db.next_message_id + 1 })

/-- `NotificationService.get_sent_messages` (admin backend, lines 200–214). -/
def get_sent_messages (dispatcher : User) (db : DB) : List SentMessageView :=
  (db.messages.filter (fun m => m.sender_id == dispatcher.id)).map (fun m =>
    { id := m.id
      content := m.content
      to_name := (db.users.find? (fun u => u.id == m.recipient_id)).map (fun u => u.full_name)
      to_role := (db.users.find? (fun u => u.id == m.recipient_id)).map (fun u => u.role.value)
      shipment_number :=
        match m.shipment_id with
        | none => none
        | some sid => (db.shipments.find? (fun s => s.id == sid)).map (fun s => s.shipment_number)
      sent_at := m.created_at
      is_read := m.is_read })

end Admin

namespace DriverB

/-!
Embedding of `src/backend/driver_backend/main.py` (the flat route-function
backend; near-duplicate of the admin service but with different response
shapes and no `updated_at` refresh on login).
-/

/-- Result dict of `assign_driver` (driver backend, lines 147–152). -/
structure AssignResponse where
  message : String
  shipment_number : String
  driver_id : Nat
  status : String
deriving DecidableEq, Repr

/-- Result dict of `update_shipment_status` (driver backend, lines 171–175). -/
structure StatusResponse where
  message : String
  shipment_number : String
  new_status : String
deriving DecidableEq, Repr

/-- `dispatcher_login` (driver backend, lines 55–77).  Identical credential and
role checks to the admin backend, but no `updated_at` write: the store is
untouched on every path.  `now` is the wall clock, available but unused by this
route. -/
def dispatcher_login (verify : String → String → Bool)
    (email password : String) (now : Nat) (db : DB) :
    Except ApiError User × DB :=
  match db.users.find? (fun u => u.email == email) with
  | none => (.error ⟨401, "Invalid credentials"⟩, db)
  | some user =>
    if !verify password user.password_hash then
      (.error ⟨401, "Invalid credentials"⟩, db)
    else if user.role ≠ UserRole.dispatcher then
      (.error ⟨403, "Dispatcher access only"⟩, db)
    else
      (.ok user, db)

/-- `assign_driver` (driver backend, lines 127–152): shipment looked up and
checked first, then the driver; on success `driver_id` and `status` are written
and committed, and the refreshed shipment is read back for the response. -/
def assign_driver (shipment_id driver_id : Nat) (db : DB) :
    Except ApiError AssignResponse × DB :=
  match db.shipments.find? (fun s => s.id == shipment_id) with
  | none => (.error ⟨404, "Shipment not found"⟩, db)
  | some shipment =>
    match db.drivers.find? (fun d => d.id == driver_id) with
    | none => (.error ⟨404, "Driver not found"⟩, db)
    | some driver =>
      let shipment' := { shipment with driver_id := some driver.id,
                                       status := ShipmentStatus.ASSIGNED }
      (.ok ⟨"Driver assigned successfully", shipment.shipment_number, driver.id,
            shipment'.status.value⟩,
       { db with shipments :=
          db.shipments.map (fun s => if s.id == shipment_id then shipment' else s) })

/-- `update_shipment_status` (driver backend, lines 156–175). -/
def update_shipment_status (shipment_id : Nat) (new_status : ShipmentStatus) (db : DB) :
    Except ApiError StatusResponse × DB :=
  match db.shipments.find? (fun s => s.id == shipment_id) with
  | none => (.error ⟨404, "Shipment not found"⟩, db)
  | some shipment =>
    let shipment' := { shipment with status := new_status }
    (.ok ⟨"Shipment status updated successfully", shipment.shipment_number,
          shipment'.status.value⟩,
     { db with shipments :=
        db.shipments.map (fun s => if s.id == shipment_id then shipment' else s) })

end DriverB

/-- The spec's driver-assignment invariant (section 3): every shipment whose
status is `ASSIGNED`, `IN_TRANSIT` or `DELIVERED` has a non-null `driver_id`
referencing an existing `Driver` row. -/
def driverInvariant (db : DB) : Bool :=
  db.shipments.all (fun s =>
    if s.status == ShipmentStatus.ASSIGNED || s.status == ShipmentStatus.IN_TRANSIT
        || s.status == ShipmentStatus.DELIVERED then
      match s.driver_id with
      | some did => db.drivers.any (fun d => d.id == did)
      | none => false
    else true)

/-- Projection of a `Shipment` onto every column except `status`; used to state
frame conditions ("only the status changed"). -/
def shipmentFrame (s : Shipment) :
    Nat × String × String × String × String × Nat × String × Option Nat × Option Nat × Nat :=
  (s.id, s.shipment_number, s.pickup_location, s.delivery_location, s.cargo_type,
   s.weight, s.dimensions, s.customer_id, s.driver_id, s.created_at)

/-- One request to the admin backend's message-send route, bundled so that a
sequence of sends can be iterated. -/
structure SendRequest where
  recipient_id : Nat
  message : String
  shipment_id : Option Nat
  message_type : MessageType
  now : Nat
deriving DecidableEq, Repr

/-- Iterates `Admin.send_message` over a list of requests, succeeding only if
every individual send succeeds. -/
def sendAll (sender : User) (reqs : List SendRequest) (db : DB) : Option DB :=
  match reqs with
  | [] => some db
  | r :: rs =>
    match Admin.send_message sender r.recipient_id r.message r.shipment_id
        r.message_type r.now db with
    | (Except.ok _, db') => sendAll sender rs db'
    | (Except.error _, _) => none

/-! ### Concrete sample store used by witnesses and counterexamples -/

/-- A dispatcher account; its stored hash equals its password under `sampleVerify`. -/
def sampleDispatcher : User :=
  ⟨1, "dispatch@logi.com", "pw-dispatch", "Dana Dispatcher", "111", UserRole.dispatcher, 0⟩

/-- A customer account. -/
def sampleCustomer : User :=
  ⟨5, "cust@logi.com", "pw-cust", "Carl Customer", "222", UserRole.customer, 0⟩

/-- A driver-role user account, matching the `Driver` row with id 7. -/
def sampleDriverUser : User :=
  ⟨9, "drv@logi.com", "pw-drv", "Drew Driver", "333", UserRole.driver, 0⟩

/-- An operational driver profile. -/
def sampleDriver : Driver := ⟨7, "Drew Driver", "333", "LIC-7"⟩

/-- A pending shipment with no driver assigned. -/
def sampleShipment : Shipment :=
  ⟨1, "SHP-001", "Warehouse A", "Dock B", "crates", 10, "2x2x2", ShipmentStatus.PENDING,
   some 5, none, 0⟩

/-- The sample store: three users, one driver, one pending shipment, no messages. -/
def sampleDB : DB :=
  ⟨[sampleDispatcher, sampleCustomer, sampleDriverUser], [sampleDriver], [sampleShipment], [], 1⟩

/-- A concrete stand-in for the opaque password-verification capability:
a password verifies against a stored hash exactly when they are equal. -/
def sampleVerify (password hash : String) : Bool := password == hash

/-- Two concrete send requests from the sample dispatcher to customer 5. -/
def sampleReqs : List SendRequest :=
  [⟨5, "m1", none, MessageType.TO_CUSTOMER, 2⟩,
   ⟨5, "m2", some 1, MessageType.TO_DRIVER, 3⟩]

/-- The store obtained from `sampleDB` after the two sends of `sampleReqs`. -/
def sampleSentDB : DB :=
  { sampleDB with
      messages :=
        [⟨1, 1, 5, none, "m1", MessageType.TO_CUSTOMER, 2, false⟩,
         ⟨2, 1, 5, some 1, "m2", MessageType.TO_DRIVER, 3, false⟩]
      next_message_id := 3 }

/-! ### General lemmas about the embedded operations -/

/-- With pairwise-distinct shipment ids, any row sharing the id of the row that
`find?` located is that row itself. -/
theorem find_id_unique {l : List Shipment} {sid : Nat} {s t : Shipment}
    (hnd : (l.map (fun x => x.id)).Nodup)
    (hs : l.find? (fun x => x.id == sid) = some s)
    (ht : t ∈ l) (hid : t.id = sid) : t = s := by
  have hsl : s ∈ l := List.mem_of_find?_eq_some hs
  have hsid : s.id = sid := by simpa using List.find?_some hs
  exact List.inj_on_of_nodup_map hnd ht hsl (by rw [hid, hsid])

/-- C2: `assignDriver` with an unknown `shipment_id` or an unknown `driver_id`
yields a 404 `NotFound` in both backends and returns the store exactly as it
was before the call (every shipment, driver, user and message record
unchanged). -/
theorem assign_driver_not_found_frame (shipment_id driver_id : Nat) (db : DB)
    (h : db.shipments.find? (fun s => s.id == shipment_id) = none ∨
         db.drivers.find? (fun d => d.id == driver_id) = none) :
    ((Admin.assign_driver shipment_id driver_id db).1 = .error ⟨404, "Shipment not found"⟩ ∨
     (Admin.assign_driver shipment_id driver_id db).1 = .error ⟨404, "Driver not found"⟩) ∧
    (Admin.assign_driver shipment_id driver_id db).2 = db ∧
    ((DriverB.assign_driver shipment_id driver_id db).1 = .error ⟨404, "Shipment not found"⟩ ∨
     (DriverB.assign_driver shipment_id driver_id db).1 = .error ⟨404, "Driver not found"⟩) ∧
    (DriverB.assign_driver shipment_id driver_id db).2 = db := by
  unfold Admin.assign_driver DriverB.assign_driver
  rcases h with h | h
  · simp [h]
  · cases hs : db.shipments.find? (fun s => s.id == shipment_id) <;> simp [h, hs]

/-- Witness for C2 at a concrete input: shipment 999 is absent from `sampleDB`,
so the call leaves the store untouched. -/
theorem assign_driver_not_found_frame_witness :
    (Admin.assign_driver 999 7 sampleDB).2 = sampleDB ∧
    (DriverB.assign_driver 999 7 sampleDB).2 = sampleDB :=
  ⟨(assign_driver_not_found_frame 999 7 sampleDB (Or.inl (by decide))).2.1,
   (assign_driver_not_found_frame 999 7 sampleDB (Or.inl (by decide))).2.2.2⟩

/-- Replacing the located row by a row with an equal frame projection leaves the
frame projection of the whole table unchanged, provided ids are unique. -/
theorem map_replace_frame {l : List Shipment} {sid : Nat} {s s' : Shipment}
    (hnd : (l.map (fun x => x.id)).Nodup)
    (hs : l.find? (fun x => x.id == sid) = some s)
    (hframe : shipmentFrame s' = shipmentFrame s) :
    (l.map (fun t => if t.id == sid then s' else t)).map shipmentFrame =
      l.map shipmentFrame := by
  rw [List.map_map]
  apply List.map_congr_left
  intro t ht
  by_cases hid : t.id = sid
  · have hts : t = s := find_id_unique hnd hs ht hid
    subst hts
    simp [Function.comp, hid, hframe]
  · simp [Function.comp, hid]

/-- After replacing every row whose id is `sid` by `s'` (itself carrying id
`sid`), `find?` on that id locates `s'`, provided the original table had a row
with that id. -/
theorem find_after_replace {l : List Shipment} {sid : Nat} {s s' : Shipment}
    (hs : l.find? (fun x => x.id == sid) = some s) (hid : s'.id = sid) :
    (l.map (fun t => if t.id == sid then s' else t)).find? (fun t => t.id == sid) =
      some s' := by
  induction l with
  | nil => simp at hs
  | cons a l ih =>
    by_cases ha : a.id = sid
    · simp [ha, hid]
    · have hs' : l.find? (fun x => x.id == sid) = some s := by
        simpa [List.find?_cons, ha] using hs
      simpa [ha] using ih hs'

/-- Unfolding equation for `Admin.update_status` on an existing shipment. -/
theorem admin_update_status_ok (sid : Nat) (st : ShipmentStatus) (db : DB) (s : Shipment)
    (hs : db.shipments.find? (fun t => t.id == sid) = some s) :
    Admin.update_status sid st db =
      (.ok ⟨"Status updated", s.shipment_number, st.value⟩,
       { db with shipments :=
          db.shipments.map (fun t => if t.id == sid then { s with status := st } else t) }) := by
  unfold Admin.update_status
  rw [hs]

/-- Unfolding equation for `DriverB.update_shipment_status` on an existing shipment. -/
theorem driverb_update_status_ok (sid : Nat) (st : ShipmentStatus) (db : DB) (s : Shipment)
    (hs : db.shipments.find? (fun t => t.id == sid) = some s) :
    DriverB.update_shipment_status sid st db =
      (.ok ⟨"Shipment status updated successfully", s.shipment_number, st.value⟩,
       { db with shipments :=
          db.shipments.map (fun t => if t.id == sid then { s with status := st } else t) }) := by
  unfold DriverB.update_shipment_status
  rw [hs]

/-- C7: for an existing shipment, `updateStatus` changes only that shipment's
`status` field (in both backends): the response reports the new status, every
non-status column of every shipment is unchanged, the target's status becomes
the new status, and the user, driver and message tables are untouched. -/
theorem update_status_only_status (sid : Nat) (st : ShipmentStatus) (db : DB) (s : Shipment)
    (hs : db.shipments.find? (fun t => t.id == sid) = some s)
    (hnd : (db.shipments.map (fun t => t.id)).Nodup) :
    ((Admin.update_status sid st db).1 = .ok ⟨"Status updated", s.shipment_number, st.value⟩ ∧
     (Admin.update_status sid st db).2.users = db.users ∧
     (Admin.update_status sid st db).2.drivers = db.drivers ∧
     (Admin.update_status sid st db).2.messages = db.messages ∧
     (Admin.update_status sid st db).2.next_message_id = db.next_message_id ∧
     (Admin.update_status sid st db).2.shipments.map shipmentFrame =
       db.shipments.map shipmentFrame ∧
     (Admin.update_status sid st db).2.shipments.find? (fun t => t.id == sid) =
       some { s with status := st }) ∧
    ((DriverB.update_shipment_status sid st db).1 =
       .ok ⟨"Shipment status updated successfully", s.shipment_number, st.value⟩ ∧
     (DriverB.update_shipment_status sid st db).2.users = db.users ∧
     (DriverB.update_shipment_status sid st db).2.drivers = db.drivers ∧
     (DriverB.update_shipment_status sid st db).2.messages = db.messages ∧
     (DriverB.update_shipment_status sid st db).2.next_message_id = db.next_message_id ∧
     (DriverB.update_shipment_status sid st db).2.shipments.map shipmentFrame =
       db.shipments.map shipmentFrame ∧
     (DriverB.update_shipment_status sid st db).2.shipments.find? (fun t => t.id == sid) =
       some { s with status := st }) := by
  have hsid : s.id = sid := by simpa using List.find?_some hs
  have hfr : shipmentFrame { s with status := st } = shipmentFrame s := rfl
  have hid' : ({ s with status := st } : Shipment).id = sid := hsid
  rw [admin_update_status_ok sid st db s hs, driverb_update_status_ok sid st db s hs]
  exact ⟨⟨rfl, rfl, rfl, rfl, rfl, map_replace_frame hnd hs hfr, find_after_replace hs hid'⟩,
         ⟨rfl, rfl, rfl, rfl, rfl, map_replace_frame hnd hs hfr, find_after_replace hs hid'⟩⟩

/-- Witness for C7 at a concrete input: shipment 1 of `sampleDB` moved to
`IN_TRANSIT` keeps its frame columns. -/
theorem update_status_only_status_witness :
    (Admin.update_status 1 ShipmentStatus.IN_TRANSIT sampleDB).2.shipments.map shipmentFrame =
      sampleDB.shipments.map shipmentFrame ∧
    (DriverB.update_shipment_status 1 ShipmentStatus.IN_TRANSIT sampleDB).2.users =
      sampleDB.users :=
  ⟨(update_status_only_status 1 ShipmentStatus.IN_TRANSIT sampleDB sampleShipment
      (by decide) (by decide)).1.2.2.2.2.2.1,
   (update_status_only_status 1 ShipmentStatus.IN_TRANSIT sampleDB sampleShipment
      (by decide) (by decide)).2.2.1⟩

/-- Unfolding equation for `Admin.send_message` when the recipient exists. -/
theorem admin_send_message_ok (sender : User) (rid : Nat) (msg : String)
    (shid : Option Nat) (mt : MessageType) (now : Nat) (db : DB) (recipient : User)
    (hr : db.users.find? (fun u => u.id == rid) = some recipient) :
    Admin.send_message sender rid msg shid mt now db =
      (.ok ⟨db.next_message_id, msg, recipient.full_name, recipient.role.value, shid, now⟩,
       { db with
          messages := db.messages ++
            [⟨db.next_message_id, sender.id, rid, shid, msg, mt, now, false⟩]
          next_message_id := db.next_message_id + 1 }) := by
  unfold Admin.send_message
  rw [hr]

/-- C8: `send` with an existing recipient succeeds even when `shipment_id`
references no existing shipment: no foreign-key validation is performed, and the
stored `Message` row carries the given `shipment_id` as-is (the receipt echoes
it too). -/
theorem send_message_dangling_shipment (sender : User) (rid : Nat) (msg : String)
    (sid : Nat) (mt : MessageType) (now : Nat) (db : DB) (recipient : User)
    (hr : db.users.find? (fun u => u.id == rid) = some recipient)
    (hs : db.shipments.find? (fun t => t.id == sid) = none) :
    (Admin.send_message sender rid msg (some sid) mt now db).1 =
      .ok ⟨db.next_message_id, msg, recipient.full_name, recipient.role.value, some sid, now⟩ ∧
    (Admin.send_message sender rid msg (some sid) mt now db).2.messages =
      db.messages ++ [⟨db.next_message_id, sender.id, rid, some sid, msg, mt, now, false⟩] := by
  rw [admin_send_message_ok sender rid msg (some sid) mt now db recipient hr]
  exact ⟨rfl, rfl⟩

/-- Witness for C8 at a concrete input: shipment 999 does not exist in
`sampleDB`, yet the send to customer 5 succeeds and stores `shipment_id = 999`. -/
theorem send_message_dangling_shipment_witness :
    (Admin.send_message sampleDispatcher 5 "Delayed" (some 999) MessageType.TO_CUSTOMER 3
        sampleDB).2.messages =
      sampleDB.messages ++
        [⟨1, 1, 5, some 999, "Delayed", MessageType.TO_CUSTOMER, 3, false⟩] :=
  (send_message_dangling_shipment sampleDispatcher 5 "Delayed" 999 MessageType.TO_CUSTOMER 3
      sampleDB sampleCustomer (by decide) (by decide)).2

/-- C9: `send` performs no consistency check between `message_type` and the
recipient's role: for every message type (including `to_customer`) and a
recipient of any role, the message is recorded with that type, and the
receipt's `sent_to_role` is the recipient's actual stored role, independent of
the given `message_type`. -/
theorem send_message_role_independent (sender : User) (rid : Nat) (msg : String)
    (shid : Option Nat) (now : Nat) (db : DB) (recipient : User)
    (hr : db.users.find? (fun u => u.id == rid) = some recipient) :
    ∀ mt : MessageType,
      (Admin.send_message sender rid msg shid mt now db).1 =
        .ok ⟨db.next_message_id, msg, recipient.full_name, recipient.role.value, shid, now⟩ ∧
      (Admin.send_message sender rid msg shid mt now db).2.messages =
        db.messages ++ [⟨db.next_message_id, sender.id, rid, shid, msg, mt, now, false⟩] := by
  intro mt
  rw [admin_send_message_ok sender rid msg shid mt now db recipient hr]
  exact ⟨rfl, rfl⟩

/-- Witness for C9 at a concrete input: a `to_customer`-typed message sent to
the driver-role user 9 is recorded, and the receipt reports the stored role
string "driver". -/
theorem send_message_role_independent_witness :
    (Admin.send_message sampleDispatcher 9 "hi" none MessageType.TO_CUSTOMER 4 sampleDB).1 =
      .ok ⟨1, "hi", "Drew Driver", "driver", none, 4⟩ :=
  (send_message_role_independent sampleDispatcher 9 "hi" none 4 sampleDB sampleDriverUser
      (by decide) MessageType.TO_CUSTOMER).1

/-- The `.value` string of a role is "dispatcher" exactly for the dispatcher role. -/
theorem role_value_dispatcher (r : UserRole) : (r.value = "dispatcher") ↔ r = UserRole.dispatcher := by
  cases r <;> decide

/-- C5: a login with an email matching no user and a login with a known email
but a wrong password produce the identical error in both backends — the same
status code 401 and the same detail string — so the two failure causes are
indistinguishable to the caller. -/
theorem authenticate_enumeration_safe (verify : String → String → Bool)
    (e1 p1 e2 p2 : String) (now : Nat) (db : DB) (u : User)
    (h1 : db.users.find? (fun x => x.email == e1) = none)
    (h2 : db.users.find? (fun x => x.email == e2) = some u)
    (hv : verify p2 u.password_hash = false) :
    (Admin.authenticate_dispatcher verify e1 p1 now db).1 =
      .error ⟨401, "Invalid credentials"⟩ ∧
    (Admin.authenticate_dispatcher verify e2 p2 now db).1 =
      .error ⟨401, "Invalid credentials"⟩ ∧
    (Admin.authenticate_dispatcher verify e1 p1 now db).1 =
      (Admin.authenticate_dispatcher verify e2 p2 now db).1 ∧
    (DriverB.dispatcher_login verify e1 p1 now db).1 =
      .error ⟨401, "Invalid credentials"⟩ ∧
    (DriverB.dispatcher_login verify e2 p2 now db).1 =
      .error ⟨401, "Invalid credentials"⟩ ∧
    (DriverB.dispatcher_login verify e1 p1 now db).1 =
      (DriverB.dispatcher_login verify e2 p2 now db).1 := by
  unfold Admin.authenticate_dispatcher DriverB.dispatcher_login
  rw [h1, h2]
  simp [hv]

/-- Witness for C5 at a concrete input: `nobody@logi.com` matches no user of
`sampleDB`, while `cust@logi.com` exists but "wrong" is not its password. -/
theorem authenticate_enumeration_safe_witness :
    (Admin.authenticate_dispatcher sampleVerify "nobody@logi.com" "x" 9 sampleDB).1 =
      (Admin.authenticate_dispatcher sampleVerify "cust@logi.com" "wrong" 9 sampleDB).1 :=
  (authenticate_enumeration_safe sampleVerify "nobody@logi.com" "x" "cust@logi.com" "wrong"
      9 sampleDB sampleCustomer (by decide) (by decide) (by decide)).2.2.1

/-- C10: in both backends the role check runs only after password verification:
with the email of an existing non-dispatcher account, a wrong password yields
401 `Invalid credentials` (never 403), while a correct password yields 403
`Dispatcher access only`; on both of those paths the store — in particular the
user's `updated_at` — is left unchanged. -/
theorem role_check_after_password (verify : String → String → Bool)
    (email pw : String) (now : Nat) (db : DB) (u : User)
    (hu : db.users.find? (fun x => x.email == email) = some u)
    (hrole : u.role ≠ UserRole.dispatcher) :
    (verify pw u.password_hash = false →
      (Admin.authenticate_dispatcher verify email pw now db).1 =
        .error ⟨401, "Invalid credentials"⟩ ∧
      (Admin.authenticate_dispatcher verify email pw now db).2 = db ∧
      (DriverB.dispatcher_login verify email pw now db).1 =
        .error ⟨401, "Invalid credentials"⟩ ∧
      (DriverB.dispatcher_login verify email pw now db).2 = db) ∧
    (verify pw u.password_hash = true →
      (Admin.authenticate_dispatcher verify email pw now db).1 =
        .error ⟨403, "Dispatcher access only"⟩ ∧
      (Admin.authenticate_dispatcher verify email pw now db).2 = db ∧
      (DriverB.dispatcher_login verify email pw now db).1 =
        .error ⟨403, "Dispatcher access only"⟩ ∧
      (DriverB.dispatcher_login verify email pw now db).2 = db) := by
  have hval : u.role.value ≠ "dispatcher" := fun h => hrole ((role_value_dispatcher u.role).mp h)
  unfold Admin.authenticate_dispatcher DriverB.dispatcher_login
  rw [hu]
  constructor
  · intro hv
    simp [hv]
  · intro hv
    simp [hv, hval, hrole]

/-- Witness for C10 at a concrete input: user 5 of `sampleDB` is a customer;
with the right password the call returns 403 and leaves the store unchanged. -/
theorem role_check_after_password_witness :
    (Admin.authenticate_dispatcher sampleVerify "cust@logi.com" "pw-cust" 9 sampleDB).1 =
      .error ⟨403, "Dispatcher access only"⟩ ∧
    (Admin.authenticate_dispatcher sampleVerify "cust@logi.com" "pw-cust" 9 sampleDB).2 =
      sampleDB :=
  ((role_check_after_password sampleVerify "cust@logi.com" "pw-cust" 9 sampleDB sampleCustomer
      (by decide) (by decide)).2 (by decide)).imp id (fun h => h.1)

/-- C4 counterexample: in the driver backend, a fully successful dispatcher
login (correct email, correct password, dispatcher role) at time 5 returns the
principal but writes nothing: the store is returned unchanged and the stored
user's `updated_at` is still 0, not the current time 5.  The claimed
last-login refresh therefore does not happen in both backends. -/
theorem dispatcher_login_no_timestamp_refresh :
    (DriverB.dispatcher_login sampleVerify "dispatch@logi.com" "pw-dispatch" 5 sampleDB).1 =
      .ok sampleDispatcher ∧
    (DriverB.dispatcher_login sampleVerify "dispatch@logi.com" "pw-dispatch" 5 sampleDB).2 =
      sampleDB ∧
    ((DriverB.dispatcher_login sampleVerify "dispatch@logi.com" "pw-dispatch" 5
        sampleDB).2.users.find? (fun u => u.email == "dispatch@logi.com")).map
      (fun u => u.updated_at) = some 0 := by
  decide

/-- C4 (amended): on a successful dispatcher authentication, the admin backend
sets the authenticated user's `updated_at` to the current time and persists
that write to the user table before returning the principal; the driver
backend's login performs no such write and returns the store unchanged. -/
theorem authenticate_timestamp_refresh (verify : String → String → Bool)
    (email pw : String) (now : Nat) (db : DB) (u : User)
    (hu : db.users.find? (fun x => x.email == email) = some u)
    (hv : verify pw u.password_hash = true)
    (hr : u.role = UserRole.dispatcher) :
    (Admin.authenticate_dispatcher verify email pw now db).1 =
      .ok { u with updated_at := now } ∧
    (Admin.authenticate_dispatcher verify email pw now db).2.users =
      db.users.map (fun x => if x.id == u.id then { u with updated_at := now } else x) ∧
    (Admin.authenticate_dispatcher verify email pw now db).2.drivers = db.drivers ∧
    (Admin.authenticate_dispatcher verify email pw now db).2.shipments = db.shipments ∧
    (Admin.authenticate_dispatcher verify email pw now db).2.messages = db.messages ∧
    (DriverB.dispatcher_login verify email pw now db).1 = .ok u ∧
    (DriverB.dispatcher_login verify email pw now db).2 = db := by
  have hval : u.role.value = "dispatcher" := (role_value_dispatcher u.role).mpr hr
  unfold Admin.authenticate_dispatcher DriverB.dispatcher_login
  rw [hu]
  simp [hv, hr, UserRole.value]

/-- Witness for the amended C4 at a concrete input: the admin backend login of
the sample dispatcher at time 5 persists `updated_at = 5`. -/
theorem authenticate_timestamp_refresh_witness :
    (Admin.authenticate_dispatcher sampleVerify "dispatch@logi.com" "pw-dispatch" 5
        sampleDB).2.users =
      sampleDB.users.map
        (fun x => if x.id == 1 then { sampleDispatcher with updated_at := 5 } else x) :=
  (authenticate_timestamp_refresh sampleVerify "dispatch@logi.com" "pw-dispatch" 5 sampleDB
      sampleDispatcher (by decide) (by decide) (by decide)).2.1

/-- Unfolding equation for `Admin.assign_driver` when shipment and driver exist. -/
theorem admin_assign_driver_ok (sid did : Nat) (db : DB) (s : Shipment) (d : Driver)
    (hs : db.shipments.find? (fun t => t.id == sid) = some s)
    (hd : db.drivers.find? (fun t => t.id == did) = some d) :
    Admin.assign_driver sid did db =
      (.ok ⟨"Driver assigned", s.shipment_number, d.full_name, "ASSIGNED"⟩,
       { db with shipments :=
          db.shipments.map (fun t =>
            if t.id == sid then
              { s with driver_id := some d.id, status := ShipmentStatus.ASSIGNED }
            else t) }) := by
  unfold Admin.assign_driver
  rw [hs, hd]

/-- Unfolding equation for `DriverB.assign_driver` when shipment and driver exist. -/
theorem driverb_assign_driver_ok (sid did : Nat) (db : DB) (s : Shipment) (d : Driver)
    (hs : db.shipments.find? (fun t => t.id == sid) = some s)
    (hd : db.drivers.find? (fun t => t.id == did) = some d) :
    DriverB.assign_driver sid did db =
      (.ok ⟨"Driver assigned successfully", s.shipment_number, d.id, "ASSIGNED"⟩,
       { db with shipments :=
          db.shipments.map (fun t =>
            if t.id == sid then
              { s with driver_id := some d.id, status := ShipmentStatus.ASSIGNED }
            else t) }) := by
  unfold DriverB.assign_driver
  rw [hs, hd]
  rfl

/-- Replacing every id-`sid` row by a fixed row `s'` that itself carries id
`sid` is an idempotent table transformation. -/
theorem map_replace_idempotent (l : List Shipment) (sid : Nat) (s' : Shipment)
    (hid : s'.id = sid) :
    ((l.map (fun t => if t.id == sid then s' else t)).map
        (fun t => if t.id == sid then s' else t)) =
      l.map (fun t => if t.id == sid then s' else t) := by
  rw [List.map_map]
  apply List.map_congr_left
  intro t ht
  by_cases h : t.id = sid
  · simp [Function.comp, h, hid]
  · simp [Function.comp, h]

/-- C3: `assignDriver` on an existing shipment and existing driver succeeds in
both backends regardless of the shipment's prior status or prior driver: the
response reports `ASSIGNED`, the stored shipment afterwards has
`status = ASSIGNED` and `driver_id = driverId`, and an immediately repeated
call with the same driver leaves the store exactly equal to the store after the
first call (idempotence). -/
theorem assign_driver_sets_and_idempotent (sid did : Nat) (db : DB) (s : Shipment) (d : Driver)
    (hs : db.shipments.find? (fun t => t.id == sid) = some s)
    (hd : db.drivers.find? (fun t => t.id == did) = some d) :
    ((Admin.assign_driver sid did db).1 =
       .ok ⟨"Driver assigned", s.shipment_number, d.full_name, "ASSIGNED"⟩ ∧
     (Admin.assign_driver sid did db).2.shipments.find? (fun t => t.id == sid) =
       some { s with driver_id := some d.id, status := ShipmentStatus.ASSIGNED } ∧
     (Admin.assign_driver sid did (Admin.assign_driver sid did db).2).2 =
       (Admin.assign_driver sid did db).2) ∧
    ((DriverB.assign_driver sid did db).1 =
       .ok ⟨"Driver assigned successfully", s.shipment_number, d.id, "ASSIGNED"⟩ ∧
     (DriverB.assign_driver sid did db).2.shipments.find? (fun t => t.id == sid) =
       some { s with driver_id := some d.id, status := ShipmentStatus.ASSIGNED } ∧
     (DriverB.assign_driver sid did (DriverB.assign_driver sid did db).2).2 =
       (DriverB.assign_driver sid did db).2) := by
  have hsid : s.id = sid := by simpa using List.find?_some hs
  have hid' : ({ s with driver_id := some d.id, status := ShipmentStatus.ASSIGNED } :
      Shipment).id = sid := hsid
  have hfind1 :
      (db.shipments.map (fun t =>
          if t.id == sid then
            { s with driver_id := some d.id, status := ShipmentStatus.ASSIGNED }
          else t)).find? (fun t => t.id == sid) =
        some { s with driver_id := some d.id, status := ShipmentStatus.ASSIGNED } :=
    find_after_replace hs hid'
  have eA1 : (Admin.assign_driver sid did db).2 =
      { db with shipments := db.shipments.map (fun t =>
          if t.id == sid then
            { s with driver_id := some d.id, status := ShipmentStatus.ASSIGNED }
          else t) } := by
    rw [admin_assign_driver_ok sid did db s d hs hd]
  have eA2 : (Admin.assign_driver sid did
      { db with shipments := db.shipments.map (fun t =>
          if t.id == sid then
            { s with driver_id := some d.id, status := ShipmentStatus.ASSIGNED }
          else t) }).2 =
      { db with shipments := db.shipments.map (fun t =>
          if t.id == sid then
            { s with driver_id := some d.id, status := ShipmentStatus.ASSIGNED }
          else t) } := by
    rw [admin_assign_driver_ok sid did
        { db with shipments := db.shipments.map (fun t =>
            if t.id == sid then
              { s with driver_id := some d.id, status := ShipmentStatus.ASSIGNED }
            else t) }
        { s with driver_id := some d.id, status := ShipmentStatus.ASSIGNED } d hfind1 hd]
    dsimp only
    congr 1
    exact map_replace_idempotent db.shipments sid _ hid'
  have eB1 : (DriverB.assign_driver sid did db).2 =
      { db with shipments := db.shipments.map (fun t =>
          if t.id == sid then
            { s with driver_id := some d.id, status := ShipmentStatus.ASSIGNED }
          else t) } := by
    rw [driverb_assign_driver_ok sid did db s d hs hd]
  have eB2 : (DriverB.assign_driver sid did
      { db with shipments := db.shipments.map (fun t =>
          if t.id == sid then
            { s with driver_id := some d.id, status := ShipmentStatus.ASSIGNED }
          else t) }).2 =
      { db with shipments := db.shipments.map (fun t =>
          if t.id == sid then
            { s with driver_id := some d.id, status := ShipmentStatus.ASSIGNED }
          else t) } := by
    rw [driverb_assign_driver_ok sid did
        { db with shipments := db.shipments.map (fun t =>
            if t.id == sid then
              { s with driver_id := some d.id, status := ShipmentStatus.ASSIGNED }
            else t) }
        { s with driver_id := some d.id, status := ShipmentStatus.ASSIGNED } d hfind1 hd]
    dsimp only
    congr 1
    exact map_replace_idempotent db.shipments sid _ hid'
  refine ⟨⟨?_, ?_, ?_⟩, ⟨?_, ?_, ?_⟩⟩
  · rw [admin_assign_driver_ok sid did db s d hs hd]
  · rw [eA1]
    exact hfind1
  · rw [eA1]
    exact eA2
  · rw [driverb_assign_driver_ok sid did db s d hs hd]
  · rw [eB1]
    exact hfind1
  · rw [eB1]
    exact eB2

/-- Witness for C3 at a concrete input: assigning driver 7 to shipment 1 of
`sampleDB` twice gives the same store as assigning once. -/
theorem assign_driver_sets_and_idempotent_witness :
    (Admin.assign_driver 1 7 (Admin.assign_driver 1 7 sampleDB).2).2 =
      (Admin.assign_driver 1 7 sampleDB).2 :=
  (assign_driver_sets_and_idempotent 1 7 sampleDB sampleShipment sampleDriver
      (by decide) (by decide)).1.2.2

/-- The driver-assignment invariant only reads the shipment and driver tables. -/
theorem driverInvariant_congr (db db' : DB) (hs : db'.shipments = db.shipments)
    (hd : db'.drivers = db.drivers) : driverInvariant db' = driverInvariant db := by
  unfold driverInvariant
  rw [hs, hd]

/-- Overwriting one shipment with a row that points at an existing driver and
status `ASSIGNED` preserves the driver-assignment invariant. -/
theorem driverInvariant_after_replace (db : DB) (sid : Nat) (s : Shipment) (d : Driver)
    (hmem : d ∈ db.drivers) (h : driverInvariant db = true) :
    driverInvariant { db with shipments := db.shipments.map (fun t =>
        if t.id == sid then
          { s with driver_id := some d.id, status := ShipmentStatus.ASSIGNED }
        else t) } = true := by
  unfold driverInvariant at h ⊢
  rw [List.all_eq_true] at h ⊢
  intro t' ht'
  rw [List.mem_map] at ht'
  obtain ⟨t, ht, rfl⟩ := ht'
  by_cases hcase : t.id = sid
  · simp only [hcase, beq_self_eq_true, if_true]
    have hany : db.drivers.any (fun x => x.id == d.id) = true :=
      List.any_eq_true.mpr ⟨d, hmem, by simp⟩
    simpa using hany
  · simp only [hcase]
    simpa [hcase] using h t ht

/-- C1 counterexample: the claimed invariant is not preserved by the exposed
operations.  `sampleDB` satisfies it (its only shipment is `PENDING` with no
driver), yet one `updateStatus` call moving that shipment to `IN_TRANSIT`
succeeds and leaves a shipment whose status is `IN_TRANSIT` while `driver_id`
is null. -/
theorem driver_invariant_broken_by_update_status :
    driverInvariant sampleDB = true ∧
    (Admin.update_status 1 ShipmentStatus.IN_TRANSIT sampleDB).1 =
      .ok ⟨"Status updated", "SHP-001", "IN_TRANSIT"⟩ ∧
    driverInvariant (Admin.update_status 1 ShipmentStatus.IN_TRANSIT sampleDB).2 = false := by
  decide

/-- C1 (amended): the driver-assignment invariant is preserved by every exposed
operation except `updateStatus` — by `assignDriver` in both backends (which
always links an existing driver), by `send`, and by `authenticate` in both
backends (which never touch the shipment or driver tables). -/
theorem driver_invariant_preserved (db : DB) (h : driverInvariant db = true) :
    (∀ sid did : Nat, driverInvariant (Admin.assign_driver sid did db).2 = true) ∧
    (∀ sid did : Nat, driverInvariant (DriverB.assign_driver sid did db).2 = true) ∧
    (∀ (sender : User) (rid : Nat) (msg : String) (shid : Option Nat)
        (mt : MessageType) (now : Nat),
      driverInvariant (Admin.send_message sender rid msg shid mt now db).2 = true) ∧
    (∀ (verify : String → String → Bool) (email pw : String) (now : Nat),
      driverInvariant (Admin.authenticate_dispatcher verify email pw now db).2 = true) ∧
    (∀ (verify : String → String → Bool) (email pw : String) (now : Nat),
      driverInvariant (DriverB.dispatcher_login verify email pw now db).2 = true) := by
  refine ⟨?_, ?_, ?_, ?_, ?_⟩
  · intro sid did
    cases hs : db.shipments.find? (fun t => t.id == sid) with
    | none =>
      have he : (Admin.assign_driver sid did db).2 = db := by
        unfold Admin.assign_driver
        rw [hs]
      rw [he]
      exact h
    | some s =>
      cases hd : db.drivers.find? (fun t => t.id == did) with
      | none =>
        have he : (Admin.assign_driver sid did db).2 = db := by
          unfold Admin.assign_driver
          rw [hs, hd]
        rw [he]
        exact h
      | some d =>
        rw [admin_assign_driver_ok sid did db s d hs hd]
        exact driverInvariant_after_replace db sid s d (List.mem_of_find?_eq_some hd) h
  · intro sid did
    cases hs : db.shipments.find? (fun t => t.id == sid) with
    | none =>
      have he : (DriverB.assign_driver sid did db).2 = db := by
        unfold DriverB.assign_driver
        rw [hs]
      rw [he]
      exact h
    | some s =>
      cases hd : db.drivers.find? (fun t => t.id == did) with
      | none =>
        have he : (DriverB.assign_driver sid did db).2 = db := by
          unfold DriverB.assign_driver
          rw [hs, hd]
        rw [he]
        exact h
      | some d =>
        rw [driverb_assign_driver_ok sid did db s d hs hd]
        exact driverInvariant_after_replace db sid s d (List.mem_of_find?_eq_some hd) h
  · intro sender rid msg shid mt now
    cases hr : db.users.find? (fun u => u.id == rid) with
    | none =>
      have he : (Admin.send_message sender rid msg shid mt now db).2 = db := by
        unfold Admin.send_message
        rw [hr]
      rw [he]
      exact h
    | some recipient =>
      have hmsg := admin_send_message_ok sender rid msg shid mt now db recipient hr
      have hsp : (Admin.send_message sender rid msg shid mt now db).2.shipments =
          db.shipments := by
        rw [hmsg]
      have hdr : (Admin.send_message sender rid msg shid mt now db).2.drivers =
          db.drivers := by
        rw [hmsg]
      rw [driverInvariant_congr db _ hsp hdr]
      exact h
  · intro verify email pw now
    have hsp : (Admin.authenticate_dispatcher verify email pw now db).2.shipments =
        db.shipments := by
      unfold Admin.authenticate_dispatcher
      cases hu : db.users.find? (fun x => x.email == email) with
      | none => rfl
      | some u =>
        dsimp only
        by_cases hv : (!verify pw u.password_hash) = true
        · rw [if_pos hv]
        · rw [if_neg hv]
          by_cases hrole : u.role.value ≠ "dispatcher"
          · rw [if_pos hrole]
          · rw [if_neg hrole]
    have hdr : (Admin.authenticate_dispatcher verify email pw now db).2.drivers =
        db.drivers := by
      unfold Admin.authenticate_dispatcher
      cases hu : db.users.find? (fun x => x.email == email) with
      | none => rfl
      | some u =>
        dsimp only
        by_cases hv : (!verify pw u.password_hash) = true
        · rw [if_pos hv]
        · rw [if_neg hv]
          by_cases hrole : u.role.value ≠ "dispatcher"
          · rw [if_pos hrole]
          · rw [if_neg hrole]
    rw [driverInvariant_congr db _ hsp hdr]
    exact h
  · intro verify email pw now
    have hsp : (DriverB.dispatcher_login verify email pw now db).2.shipments =
        db.shipments := by
      unfold DriverB.dispatcher_login
      cases hu : db.users.find? (fun x => x.email == email) with
      | none => rfl
      | some u =>
        dsimp only
        by_cases hv : (!verify pw u.password_hash) = true
        · rw [if_pos hv]
        · rw [if_neg hv]
          by_cases hrole : u.role ≠ UserRole.dispatcher
          · rw [if_pos hrole]
          · rw [if_neg hrole]
    have hdr : (DriverB.dispatcher_login verify email pw now db).2.drivers =
        db.drivers := by
      unfold DriverB.dispatcher_login
      cases hu : db.users.find? (fun x => x.email == email) with
      | none => rfl
      | some u =>
        dsimp only
        by_cases hv : (!verify pw u.password_hash) = true
        · rw [if_pos hv]
        · rw [if_neg hv]
          by_cases hrole : u.role ≠ UserRole.dispatcher
          · rw [if_pos hrole]
          · rw [if_neg hrole]
    rw [driverInvariant_congr db _ hsp hdr]
    exact h

/-- Witness for the amended C1 at a concrete input: assigning driver 7 to
shipment 1 of `sampleDB` keeps the invariant. -/
theorem driver_invariant_preserved_witness :
    driverInvariant (Admin.assign_driver 1 7 sampleDB).2 = true :=
  (driver_invariant_preserved sampleDB (by decide)).1 1 7

/-- A successful `send` appends exactly the expected row to the message table. -/
theorem admin_send_ok_messages (sender : User) (rid : Nat) (msg : String)
    (shid : Option Nat) (mt : MessageType) (now : Nat) (db : DB)
    (receipt : Admin.MessageReceipt) (db' : DB)
    (h : Admin.send_message sender rid msg shid mt now db = (Except.ok receipt, db')) :
    db'.messages = db.messages ++
      [⟨db.next_message_id, sender.id, rid, shid, msg, mt, now, false⟩] := by
  cases hr : db.users.find? (fun u => u.id == rid) with
  | none =>
    rw [show Admin.send_message sender rid msg shid mt now db =
        (.error ⟨404, "Recipient not found"⟩, db) from by
      unfold Admin.send_message
      rw [hr]] at h
    exact Except.noConfusion (congrArg Prod.fst h)
  | some recipient =>
    rw [admin_send_message_ok sender rid msg shid mt now db recipient hr] at h
    have h2 : ({ db with
        messages := db.messages ++
          [⟨db.next_message_id, sender.id, rid, shid, msg, mt, now, false⟩]
        next_message_id := db.next_message_id + 1 } : DB) = db' :=
      congrArg Prod.snd h
    rw [← h2]

/-- Unfolding equation for `sendAll` on a nonempty request list. -/
theorem sendAll_cons (sender : User) (r : SendRequest) (rs : List SendRequest) (db : DB) :
    sendAll sender (r :: rs) db =
      match Admin.send_message sender r.recipient_id r.message r.shipment_id
          r.message_type r.now db with
      | (Except.ok _, db') => sendAll sender rs db'
      | (Except.error _, _) => none := rfl

/-- Each successful send by `sender` grows the set of messages whose
`sender_id` is the sender's id by exactly one, so a successful run of `N`
requests grows it by `N`. -/
theorem sendAll_filter_length (sender : User) (reqs : List SendRequest) :
    ∀ db dbN : DB, sendAll sender reqs db = some dbN →
      (dbN.messages.filter (fun m => m.sender_id == sender.id)).length =
        (db.messages.filter (fun m => m.sender_id == sender.id)).length + reqs.length := by
  induction reqs with
  | nil =>
    intro db dbN h
    simp only [sendAll, Option.some.injEq] at h
    rw [← h]
    simp
  | cons r rs ih =>
    intro db dbN h
    rw [sendAll_cons] at h
    cases hsend : Admin.send_message sender r.recipient_id r.message r.shipment_id
        r.message_type r.now db with
    | mk res db' =>
      rw [hsend] at h
      cases res with
      | error e => exact Option.noConfusion h
      | ok receipt =>
        have hmsg := admin_send_ok_messages sender r.recipient_id r.message r.shipment_id
          r.message_type r.now db receipt db' hsend
        have hstep : (db'.messages.filter (fun m => m.sender_id == sender.id)).length =
            (db.messages.filter (fun m => m.sender_id == sender.id)).length + 1 := by
          rw [hmsg, List.filter_append]
          simp
        have hrec := ih db' dbN h
        rw [hrec, hstep, List.length_cons]
        omega

/-- C6: a successful `send` with an existing recipient appends exactly one new
`Message` row, carrying the sender's id, and modifies no other table; and after
any successful run of `N` sends by a sender starting from a store holding no
messages of that sender, `listSentBy(sender)` returns exactly `N` rows, each
backed by a stored message whose `sender_id` is that sender's id. -/
theorem send_message_ledger (sender : User) (rid : Nat) (msg : String) (shid : Option Nat)
    (mt : MessageType) (now : Nat) (db : DB) (recipient : User)
    (hr : db.users.find? (fun u => u.id == rid) = some recipient)
    (reqs : List SendRequest) (db0 dbN : DB)
    (h0 : db0.messages.filter (fun m => m.sender_id == sender.id) = [])
    (hN : sendAll sender reqs db0 = some dbN) :
    ((Admin.send_message sender rid msg shid mt now db).1 =
       .ok ⟨db.next_message_id, msg, recipient.full_name, recipient.role.value, shid, now⟩ ∧
     (Admin.send_message sender rid msg shid mt now db).2.messages =
       db.messages ++ [⟨db.next_message_id, sender.id, rid, shid, msg, mt, now, false⟩] ∧
     (Admin.send_message sender rid msg shid mt now db).2.users = db.users ∧
     (Admin.send_message sender rid msg shid mt now db).2.drivers = db.drivers ∧
     (Admin.send_message sender rid msg shid mt now db).2.shipments = db.shipments) ∧
    ((Admin.get_sent_messages sender dbN).length = reqs.length ∧
     ∀ m ∈ dbN.messages.filter (fun m => m.sender_id == sender.id),
       m.sender_id = sender.id) := by
  constructor
  · rw [admin_send_message_ok sender rid msg shid mt now db recipient hr]
    exact ⟨rfl, rfl, rfl, rfl, rfl⟩
  · constructor
    · have hlen := sendAll_filter_length sender reqs db0 dbN hN
      rw [h0] at hlen
      unfold Admin.get_sent_messages
      rw [List.length_map, hlen]
      simp
    · intro m hm
      have := List.of_mem_filter hm
      simpa using this

/-- Witness for C6 at a concrete input: two sends by the sample dispatcher
starting from the empty ledger of `sampleDB` leave exactly two sent rows. -/
theorem send_message_ledger_witness :
    (Admin.get_sent_messages sampleDispatcher sampleSentDB).length = sampleReqs.length :=
  (send_message_ledger sampleDispatcher 5 "hello" none MessageType.TO_CUSTOMER 6 sampleDB
      sampleCustomer (by decide) sampleReqs sampleDB sampleSentDB (by decide)
      (by decide)).2.1
